import Mathlib

/-!
Formal model of the XPlayer `DeffcodePlayer` media engine
(`src/deffcode_player.py`), as a shallow embedding: the engine state is a
record, each method is a state-transition function, and Qt signal emissions
are modelled as an append-only event log.  External effects (the deffcode
decoder, ffmpeg/ffprobe subprocesses, the wave file, PyAudio) are supplied
as explicit inputs (`Env`, `Wf`).
-/

/-- Playback state constant `DeffcodePlayer.StoppedState` (line 36). -/
def StoppedState : Nat := 0

/-- Playback state constant `DeffcodePlayer.PlayingState` (line 37). -/
def PlayingState : Nat := 1

/-- Playback state constant `DeffcodePlayer.PausedState` (line 38). -/
def PausedState : Nat := 2

/-- Buffer capacity `self.frame_buffer_size = 5` (line 70). -/
def frameBufferSize : Nat := 5

/-- Python `int(x)` applied to a (here rational-modelled) float: truncation
toward zero. -/
def pyInt (q : ℚ) : Int := if 0 ≤ q then ⌊q⌋ else ⌈q⌉

/-- Video frames are never inspected by the engine logic; identify them with `Nat`. -/
abbrev Frame := Nat

/-- Decoder metadata: an association list from key to the result of
`float(str(value))` (`none` models a value of unconvertible type or an
unparsable string; both make the code skip the key). -/
abbrev Metadata := List (String × Option ℚ)

/-- Dictionary lookup: `key in metadata` plus `metadata[key]`. -/
def mdLookup (md : Metadata) (k : String) : Option (Option ℚ) :=
  (md.find? (fun p => p.1 == k)).map Prod.snd

/-- Frame-rate resolution (lines 190-199): `source_video_framerate` if
present and convertible, else the 30.0 default. -/
def resolveFrameRate (md : Metadata) : ℚ :=
  match mdLookup md "source_video_framerate" with
  | some (some q) => q
  | _ => 30

/-- Loop over `duration_keys` (lines 221-236): first key whose value parses
to a positive float sets the duration (in ms, truncated) and breaks;
otherwise the incoming duration is kept. -/
def tryDurationKeys (md : Metadata) (dflt : Int) : List String → Int
  | [] => dflt
  | k :: ks =>
    match mdLookup md k with
    | some (some q) => if 0 < q then pyInt (q * 1000) else tryDurationKeys md dflt ks
    | _ => tryDurationKeys md dflt ks

/-- Loop over `frame_keys` (lines 240-251): first key parsing to a positive
frame count sets duration = (frames / frame_rate) * 1000, truncated. -/
def tryFrameKeys (md : Metadata) (rate : ℚ) (dflt : Int) : List String → Int
  | [] => dflt
  | k :: ks =>
    match mdLookup md k with
    | some (some q) =>
      if 0 < q then pyInt (q / rate * 1000) else tryFrameKeys md rate dflt ks
    | _ => tryFrameKeys md rate dflt ks

/-- Duration resolution chain of `_init_decoder` (lines 201-299): direct
`source_duration_sec`, alternate duration key spellings, frame-count divided
by frame-rate, bit-rate times file-size estimate, the external ffprobe
result (`probe`, `none` when the subprocess fails or prints nothing
parsable), and finally the fixed 1-hour fallback. -/
def durationChain (md : Metadata) (rate : ℚ) (probe : Option ℚ) : Int :=
  let d1 : Int :=
    match mdLookup md "source_duration_sec" with
    | some (some q) => if 0 < q then pyInt (q * 1000) else 0
    | _ => 0
  let d2 := if d1 ≤ 0 then tryDurationKeys md d1 ["duration", "Duration", "DURATION"] else d1
  let d3 :=
    if d2 ≤ 0 ∧ 0 < rate then
      tryFrameKeys md rate d2 ["nb_frames", "NUMBER_OF_FRAMES", "frames", "approx_video_nframes"]
    else d2
  let d4 :=
    if d3 ≤ 0 then
      match mdLookup md "bit_rate", mdLookup md "size" with
      | some (some br), some (some sz) =>
        if 0 < br then pyInt (sz * 8 / br * 1000) else d3
      | _, _ => d3
    else d3
  let d5 :=
    if d4 ≤ 0 then
      match probe with
      | some q => if 0 < q then pyInt (q * 1000) else d4
      | none => d4
    else d4
  d5

/-- Final step of the chain (lines 296-298): the fixed 1-hour default
whenever everything else produced a non-positive duration. -/
def resolveDuration (md : Metadata) (rate : ℚ) (probe : Option ℚ) : Int :=
  if durationChain md rate probe ≤ 0 then 3600000 else durationChain md rate probe

/-- Emitted Qt signals (lines 30-33), plus the `playlist.next()` call made
on frame exhaustion (line 377). -/
inductive Event where
  | stateChanged (s : Nat)
  | positionChanged (p : Int)
  | durationChanged (d : Int)
  | frameChanged (f : Frame)
  | playlistNext
  deriving DecidableEq, Repr

/-- Engine state: the mutable attributes of `DeffcodePlayer` that the
transport methods and ticks read or write.  Handles to external objects are
modelled by presence flags (`hasDecoder` for `self.decoder`, `hasFrameGen`
for the `frame_generator` attribute, `audio_file` for "audio file set and
present on disk", `audio_stream`/`audio_stream_active` for the PyAudio
stream and whether it is started, `audio_thread` for a live `_play_audio`
thread, `wf` for an open `self._wf` wave reader).  `source` is the list of
frames the current generator has yet to yield; `events` is the append-only
log of emitted signals. -/
structure EngineState where
  state : Nat
  duration : Int
  current_position : Int
  frame_rate : ℚ
  rate : ℚ
  volume : Int
  frame_buffer : List Frame
  source : List Frame
  hasDecoder : Bool
  hasFrameGen : Bool
  timer_active : Bool
  position_timer_active : Bool
  audio_file : Bool
  audio_stream : Bool
  audio_stream_active : Bool
  audio_playing : Bool
  audio_paused : Bool
  audio_thread : Bool
  wf : Bool
  seek_position : Int
  duration_sent : Bool
  hasPlaylist : Bool
  events : List Event
  deriving DecidableEq, Repr

/-- Outcomes of the external collaborators consulted during one
(re)initialisation: whether the media path exists, whether
`FFdecoder(...).formulate()` and the generator setup succeed, the frames
the fresh generator will yield, the decoder metadata, the ffprobe result,
whether ffmpeg audio extraction produced a non-empty file, whether the
decoder object has a `frame_generator` attribute (the fast-seek guard,
line 855), whether the fast-seek decoder re-creation succeeds, and the
frames its generator yields. -/
structure Env where
  pathOk : Bool
  decoderOk : Bool
  frames : List Frame
  metadata : Metadata
  ffprobe : Option ℚ
  audioOk : Bool
  decoderHasFrameGenAttr : Bool
  fastSeekOk : Bool
  seekFrames : List Frame

/-- Method `_stop_audio` (lines 679-725).  With a pending seek
(`seek_position > 0`) the stream is stopped but kept (marked paused) and
the wave reader stays open; otherwise both are closed. -/
def stopAudio (e : EngineState) : EngineState :=
  let e := { e with audio_playing := false }
  let isSeeking := 0 < e.seek_position
  let e :=
    if e.audio_stream then
      let e := { e with audio_stream_active := false }
      if ¬ isSeeking then { e with audio_stream := false }
      else { e with audio_paused := true }
    else e
  if ¬ isSeeking then { e with wf := false } else e

/-- Method `_init_decoder` (lines 131-311): terminate the old decoder, stop
audio, fail when the path is missing (line 147) or decoder creation raises
(lines 309-311); on success apply a pending seek offset to
`current_position` (lines 153-163), build the generator, prefill the
buffer with up to 5 frames (lines 170-181), resolve frame rate and
duration, emit `durationChanged`, and extract audio. -/
def initDecoder (env : Env) (e : EngineState) : Bool × EngineState :=
  let e := { e with hasDecoder := false }
  let e := stopAudio e
  if ¬ env.pathOk then (false, e)
  else if ¬ env.decoderOk then (false, e)
  else
    let e :=
      if 0 < e.seek_position then
        { e with current_position := e.seek_position, seek_position := 0 }
      else e
    let e := { e with hasDecoder := true, hasFrameGen := true,
                      frame_buffer := env.frames.take frameBufferSize,
                      source := env.frames.drop frameBufferSize }
    let fr := resolveFrameRate env.metadata
    let d := resolveDuration env.metadata fr env.ffprobe
    let e := { e with frame_rate := fr, duration := d,
                      events := e.events ++ [Event.durationChanged d] }
    (true, { e with audio_file := env.audioOk })

/-- Tail of `play()` (lines 740-765): set Playing, emit `stateChanged`,
re-emit `durationChanged` when `duration > 0`, start both timers, then
resume the paused audio stream or spawn a fresh `_play_audio` thread. -/
def playStart (e : EngineState) : EngineState :=
  let e := { e with state := PlayingState,
                    events := e.events ++ [Event.stateChanged PlayingState] }
  let e :=
    if 0 < e.duration then
      { e with events := e.events ++ [Event.durationChanged e.duration],
               duration_sent := true }
    else e
  let e := { e with timer_active := true, position_timer_active := true }
  if e.audio_file then
    if e.audio_paused ∧ e.audio_stream then
      { e with audio_paused := false, audio_stream_active := true }
    else
      let e := stopAudio e
      { e with audio_thread := true }
  else e

/-- Method `play()` (lines 727-765): no-op when already Playing; from
Stopped first `_init_decoder` (abort on failure, keeping its side effects)
and reset `current_position` to 0; from Paused resume directly. -/
def play (env : Env) (e : EngineState) : EngineState :=
  if e.state = PlayingState then e
  else if e.state = StoppedState then
    let r := initDecoder env e
    if r.1 then playStart { r.2 with current_position := 0 } else r.2
  else playStart e

/-- Method `pause()` (lines 767-785): only from Playing; set Paused, emit
`stateChanged`, stop both timers, and stop an active audio stream. -/
def pause (e : EngineState) : EngineState :=
  if e.state ≠ PlayingState then e
  else
    let e := { e with state := PausedState,
                      events := e.events ++ [Event.stateChanged PausedState] }
    let e := { e with timer_active := false, position_timer_active := false }
    if e.audio_stream ∧ e.audio_stream_active then
      { e with audio_paused := true, audio_stream_active := false }
    else e

/-- Method `stop()` (lines 787-816): stop both timers, `_stop_audio`,
terminate and drop the decoder, reset the position to 0 (emitting
`positionChanged 0`), clear the duration-sent mark, and set Stopped
(emitting `stateChanged`).  The frame buffer is not touched. -/
def stop (e : EngineState) : EngineState :=
  let e := { e with timer_active := false, position_timer_active := false }
  let e := stopAudio e
  let e := { e with hasDecoder := false }
  let e := { e with current_position := 0,
                    events := e.events ++ [Event.positionChanged 0] }
  let e := { e with duration_sent := false }
  { e with state := StoppedState,
           events := e.events ++ [Event.stateChanged StoppedState] }

/-- Position-reporting tick `_update_position` (lines 421-448), wired to
the 100 ms timer: only while Playing with `duration > 0`; advance the
position by `int(100 * rate)`, clamp it above at `duration` (there is no
lower clamp and no end-of-stream handling), emit `positionChanged`, and
re-emit `durationChanged` once if it has not been marked sent. -/
def updatePosition (e : EngineState) : EngineState :=
  if e.state ≠ PlayingState then e
  else if 0 < e.duration then
    let p := e.current_position + pyInt (100 * e.rate)
    let p := if e.duration < p then e.duration else p
    let e := { e with current_position := p,
                      events := e.events ++ [Event.positionChanged p] }
    if ¬ e.duration_sent ∧ 0 < e.duration then
      { e with duration_sent := true,
               events := e.events ++ [Event.durationChanged e.duration] }
    else e
  else e

/-- Method `_fill_frame_buffer` (lines 393-419): only with a decoder, a
generator and while Playing; fetch `min(frame_buffer_size - len, 5)`
frames (nothing when the buffer is already at or above capacity). -/
def fillFrameBuffer (e : EngineState) : EngineState :=
  if ¬ e.hasDecoder ∨ ¬ e.hasFrameGen ∨ e.state ≠ PlayingState then e
  else
    let toFetch : Int := (frameBufferSize : Int) - e.frame_buffer.length
    if toFetch ≤ 0 then e
    else
      let k := min toFetch.toNat 5
      { e with frame_buffer := e.frame_buffer ++ e.source.take k,
               source := e.source.drop k }

/-- Frame-delivery tick `_update_frame` (lines 357-391), wired to the 33 ms
timer: pop the oldest buffered frame, else pull from the generator; a
missing frame (exhaustion) triggers `stop()` plus `playlist.next()`;
otherwise emit the frame and top the buffer back up. -/
def updateFrame (e : EngineState) : EngineState :=
  if ¬ e.hasDecoder ∨ ¬ e.hasFrameGen ∨ e.state ≠ PlayingState then e
  else
    let r : Option Frame × EngineState :=
      match e.frame_buffer with
      | f :: rest => (some f, { e with frame_buffer := rest })
      | [] =>
        match e.source with
        | f :: rest => (some f, { e with source := rest })
        | [] => (none, e)
    match r with
    | (none, e1) =>
      let e2 := stop e1
      if e2.hasPlaylist then { e2 with events := e2.events ++ [Event.playlistNext] } else e2
    | (some f, e1) =>
      fillFrameBuffer { e1 with events := e1.events ++ [Event.frameChanged f] }

/-- Resume block shared by the three seek branches (lines 910-917, 944-951,
964-971): back to Playing, `stateChanged`, both timers restarted. -/
def seekResume (e : EngineState) : EngineState :=
  { e with state := PlayingState,
           events := e.events ++ [Event.stateChanged PlayingState],
           timer_active := true, position_timer_active := true }

/-- Audio restart after a successful fast seek (lines 919-932): resume the
paused stream if it survived, else spawn a `_play_audio` thread unless one
is still alive. -/
def seekRestartAudio (e : EngineState) (audioWasActive : Bool) : EngineState :=
  if e.audio_file then
    if audioWasActive ∧ e.audio_stream ∧ e.audio_paused then
      { e with audio_paused := false, audio_stream_active := true }
    else if ¬ e.audio_thread then { e with audio_thread := true }
    else e
  else e

/-- Audio restart in the two full re-init fallbacks (lines 953-958 and
973-978): always spawn a fresh `_play_audio` thread. -/
def seekRestartAudioFull (e : EngineState) : EngineState :=
  if e.audio_file then { e with audio_thread := true } else e

/-- Method `setPosition` (lines 818-984): no-op without a decoder; clamp
the request below at 0 and above at `duration`; stop both timers; store the
clamped value in `current_position` and `seek_position` and emit
`positionChanged`; then either fast-seek (reopen the video decoder at the
offset and prefill 2x capacity) or fall back to a full `_init_decoder`,
resuming Playing state, timers and audio if the engine was Playing.  A
failed fallback init raises and is swallowed by the outer handler, leaving
the state as the failed init left it. -/
def setPosition (env : Env) (e : EngineState) (position : Int) : EngineState :=
  if ¬ e.hasDecoder then e
  else
    let pos := if position < 0 then 0 else position
    let pos := if e.duration < pos then e.duration else pos
    let wasPlaying := e.state = PlayingState
    let e := { e with timer_active := false, position_timer_active := false }
    let e := { e with current_position := pos, seek_position := pos,
                      events := e.events ++ [Event.positionChanged pos] }
    if e.hasDecoder ∧ env.decoderHasFrameGenAttr then
      let audioWasActive := e.audio_stream ∧ e.audio_stream_active
      let e :=
        if e.audio_stream ∧ e.audio_stream_active then
          { e with audio_stream_active := false, audio_paused := true }
        else e
      if env.fastSeekOk then
        let e := { e with hasFrameGen := true,
                          frame_buffer := env.seekFrames.take (2 * frameBufferSize),
                          source := env.seekFrames.drop (2 * frameBufferSize) }
        if wasPlaying then seekRestartAudio (seekResume e) audioWasActive else e
      else
        let r := initDecoder env e
        if r.1 then (if wasPlaying then seekRestartAudioFull (seekResume r.2) else r.2)
        else r.2
    else
      let r := initDecoder env e
      if r.1 then (if wasPlaying then seekRestartAudioFull (seekResume r.2) else r.2)
      else r.2

/-- Frame buffer together with the remaining frames of its backing
generator, isolated from the rest of the engine for the buffer-discipline
claims. -/
structure BufSrc where
  buffer : List Frame
  source : List Frame
  deriving DecidableEq, Repr

/-- Prefill loops of `_init_decoder` (lines 171-181, n = 5) and of the
fast-seek path (lines 891-905, n = 10): clear the buffer, then read up to
`n` frames, stopping early when the generator is exhausted. -/
def prefillB (s : BufSrc) (n : Nat) : BufSrc :=
  { buffer := s.source.take n, source := s.source.drop n }

/-- Frame acquisition of `_update_frame` (lines 366-371): pop the oldest
buffered frame, else pull one from the generator; `none` when both are
exhausted (the end-of-stream path, lines 373-378). -/
def popFrameB (s : BufSrc) : Option Frame × BufSrc :=
  match s.buffer with
  | f :: rest => (some f, { s with buffer := rest })
  | [] =>
    match s.source with
    | f :: rest => (some f, { s with source := rest })
    | [] => (none, s)

/-- Buffer arithmetic of `_fill_frame_buffer` (lines 400-419): fetch
`min(frame_buffer_size - len, 5)` frames, nothing when the difference is
non-positive. -/
def refillB (s : BufSrc) : BufSrc :=
  let toFetch : Int := (frameBufferSize : Int) - s.buffer.length
  if toFetch ≤ 0 then s
  else
    let k := min toFetch.toNat 5
    { buffer := s.buffer ++ s.source.take k, source := s.source.drop k }

/-- Buffer operations the engine ever performs: normal prefill (capacity
5), post-seek prefill (2x capacity), pop, refill. -/
inductive BufOp where
  | prefillNormal
  | prefillSeek
  | popOp
  | refillOp
  deriving DecidableEq, Repr

/-- Dispatch one buffer operation. -/
def applyBufOp (s : BufSrc) : BufOp → BufSrc
  | .prefillNormal => prefillB s frameBufferSize
  | .prefillSeek => prefillB s (2 * frameBufferSize)
  | .popOp => (popFrameB s).2
  | .refillOp => refillB s

/-- Run a sequence of buffer operations. -/
def runBufOps (s : BufSrc) (ops : List BufOp) : BufSrc := ops.foldl applyBufOp s

/-- Condition under which the audio-monitor loop of `_play_audio`
(lines 526-540) issues a forced resync (sets `seek_position`, which makes
the audio callback jump the read cursor to the video position).  Because
`and` binds tighter than `or` in Python, the guard at lines 534-535 parses
as `(sync_diff > 1000 and not hasattr(self, '_last_sync_time')) or
(time.time() - _last_sync_time) > 2.0`; `elapsedMs` stands for the wall
time in milliseconds since `_last_sync_time` (the code compares seconds
against 2.0) and `hasLastSyncAttr` for `hasattr(self, '_last_sync_time')`,
which is always true because `__init__` line 95 sets the attribute. -/
def forceSyncTriggered (syncDiff : Int) (hasLastSyncAttr : Bool) (elapsedMs : Int) : Bool :=
  decide (200 < syncDiff) &&
    ((decide (1000 < syncDiff) && !hasLastSyncAttr) || decide (2000 < elapsedMs))

/-- PyAudio stream-callback status flags. -/
inductive PaStatus where
  | paContinue
  | paComplete
  | paAbort
  deriving DecidableEq, Repr

/-- Open wave reader `self._wf`: sample rate, the PCM frames of the file,
and the read cursor (`tell`/`setpos`). -/
structure Wf where
  rate : Nat
  samples : List Int
  pos : Nat
  deriving DecidableEq, Repr

/-- Operation `wave.Wave_read.setpos`: fails (raises) on a position outside
`[0, nframes]`. -/
def wfSetpos (w : Wf) (p : Int) : Option Wf :=
  if p < 0 ∨ (w.samples.length : Int) < p then none
  else some { w with pos := p.toNat }

/-- Player attributes the audio callback `_audio_callback` reads and
writes. -/
structure AudioState where
  wf : Option Wf
  seek_position : Int
  last_seek_position : Int
  current_position : Int
  state : Nat
  volume : Int
  deriving DecidableEq, Repr

/-- Read step at the end of the callback (lines 642-665): `readframes`
advances the cursor; an empty read closes the file and still returns
`paContinue` (lines 646-654); otherwise the samples are volume-scaled
(lines 657-663) and returned with `paContinue`. -/
def readAndReturn (a : AudioState) (frameCount : Nat) : (List Int × PaStatus) × AudioState :=
  match a.wf with
  | none => (([], .paContinue), a)
  | some w =>
    let data := (w.samples.drop w.pos).take frameCount
    let w := { w with pos := w.pos + data.length }
    if data.length = 0 then (([], .paContinue), { a with wf := none })
    else
      let out :=
        if a.volume < 100 then data.map (fun s => pyInt ((s : ℚ) * a.volume / 100))
        else data
      ((out, .paContinue), { a with wf := some w })

/-- Audio render callback `_audio_callback` (lines 563-677).  `openOk` and
`fileWf` model `wave.open(self.audio_file)`: whether it succeeds and the
reader it yields.  Branches: (1) no open reader: reopen and apply a pending
seek; (2) pending seek with an open reader: reposition when off by more
than the 50 ms tolerance and return silence; (3) while Playing: drift
beyond 300 ms forces the cursor to the video position and returns silence;
otherwise read, with end-of-data and every failure returning silence and
`paContinue`, never `paComplete`. -/
def audioCallback (openOk : Bool) (fileWf : Wf) (a : AudioState) (frameCount : Nat) :
    (List Int × PaStatus) × AudioState :=
  match a.wf with
  | none =>
    if ¬ openOk then (([], .paContinue), { a with wf := none })
    else
      if 0 < a.seek_position then
        let pf := pyInt ((a.seek_position : ℚ) / 1000 * fileWf.rate)
        let pf := if (fileWf.samples.length : Int) ≤ pf
                  then max 0 ((fileWf.samples.length : Int) - 1) else pf
        match wfSetpos fileWf pf with
        | none => (([], .paContinue), { a with wf := none })
        | some w =>
          readAndReturn { a with wf := some w,
                                 last_seek_position := a.seek_position,
                                 seek_position := 0 } frameCount
      else readAndReturn { a with wf := some fileWf } frameCount
  | some w =>
    if 0 < a.seek_position then
      let expected := pyInt ((a.seek_position : ℚ) / 1000 * w.rate)
      let expected := if (w.samples.length : Int) ≤ expected
                      then max 0 ((w.samples.length : Int) - 1) else expected
      let tol := pyInt ((5 : ℚ) / 100 * w.rate)
      if tol < |(w.pos : Int) - expected| then
        match wfSetpos w expected with
        | none => (([], .paContinue), { a with wf := none })
        | some w' =>
          (([], .paContinue), { a with wf := some w',
                                       last_seek_position := a.seek_position,
                                       seek_position := 0 })
      else
        readAndReturn { a with last_seek_position := a.seek_position,
                               seek_position := 0 } frameCount
    else if a.state = PlayingState then
      let audioTimeMs := pyInt ((w.pos : ℚ) / w.rate * 1000)
      let syncDiff := |audioTimeMs - a.current_position|
      if 300 < syncDiff then
        let newPos := pyInt ((a.current_position : ℚ) / 1000 * w.rate)
        let newPos := if (w.samples.length : Int) ≤ newPos
                      then max 0 ((w.samples.length : Int) - 1) else newPos
        match wfSetpos w newPos with
        | none => (([], .paContinue), { a with wf := none })
        | some w' => (([], .paContinue), { a with wf := some w' })
      else readAndReturn a frameCount
    else readAndReturn a frameCount

/-- Claim C9: every successful open resolves the duration through the
fallback chain (direct field, alternate spellings, frame-count over
frame-rate, bit-rate times size, external probe, fixed 1-hour default), so
the resolved duration is always strictly positive. -/
theorem C9_duration_always_positive (md : Metadata) (rate : ℚ) (probe : Option ℚ) :
    0 < resolveDuration md rate probe := by
  unfold resolveDuration
  split
  · norm_num
  · omega

/-- Truncation of an integer-valued rational is the integer itself. -/
lemma pyInt_intCast (n : ℤ) : pyInt (n : ℚ) = n := by
  unfold pyInt
  rcases le_or_lt 0 (n : ℚ) with h | h
  · rw [if_pos h, Int.floor_intCast]
  · rw [if_neg (not_le.mpr h), Int.ceil_intCast]

/-- Truncation of a nonnegative rational is nonnegative. -/
lemma pyInt_nonneg {q : ℚ} (h : 0 ≤ q) : 0 ≤ pyInt q := by
  unfold pyInt
  rw [if_pos h]
  exact Int.floor_nonneg.mpr h

/-- Engine state with the emitted-signal log erased, to compare the
resulting engine configurations of two call sequences apart from what they
emitted. -/
def core (e : EngineState) : EngineState := { e with events := [] }

/-- Full description of `stop()` as a single record update. -/
lemma stop_spec (e : EngineState) :
    stop e = { e with
      timer_active := false, position_timer_active := false,
      audio_playing := false,
      audio_stream := if e.audio_stream ∧ ¬ 0 < e.seek_position then false else e.audio_stream,
      audio_stream_active := if e.audio_stream then false else e.audio_stream_active,
      audio_paused := if e.audio_stream ∧ 0 < e.seek_position then true else e.audio_paused,
      wf := if ¬ 0 < e.seek_position then false else e.wf,
      hasDecoder := false,
      current_position := 0,
      duration_sent := false,
      state := StoppedState,
      events := e.events ++ [Event.positionChanged 0, Event.stateChanged StoppedState] } := by
  unfold stop stopAudio
  by_cases hs : e.audio_stream <;> by_cases hk : 0 < e.seek_position <;>
    simp [hs, hk]

/-- Calling `pause()` twice equals calling it once, emitted signals
included: the second call hits the not-Playing guard. -/
lemma pause_idem (e : EngineState) : pause (pause e) = pause e := by
  by_cases h : e.state = PlayingState
  · have hp : (pause e).state = PausedState := by
      unfold pause
      rw [if_neg (by simp [h])]
      dsimp only
      split_ifs <;> rfl
    rw [pause, if_pos (by rw [hp]; decide)]
  · have hp : pause e = e := by simp [pause, h]
    rw [hp, hp]

/-- Concrete engine state: Playing mid-stream with buffered frames, an
open active audio stream, an open wave reader and a pending seek. -/
def ePlaying : EngineState :=
  { state := PlayingState, duration := 1000, current_position := 500,
    frame_rate := 30, rate := 1, volume := 50,
    frame_buffer := [11, 12], source := [13, 14],
    hasDecoder := true, hasFrameGen := true,
    timer_active := true, position_timer_active := true,
    audio_file := true, audio_stream := true, audio_stream_active := true,
    audio_playing := true, audio_paused := false, audio_thread := true,
    wf := true, seek_position := 700, duration_sent := true,
    hasPlaylist := false, events := [] }

/-- Concrete engine state: freshly constructed player at rest (initial
attribute values of `__init__`, lines 40-96, with a media path set). -/
def eStopped : EngineState :=
  { state := StoppedState, duration := 0, current_position := 0,
    frame_rate := 0, rate := 1, volume := 50,
    frame_buffer := [], source := [],
    hasDecoder := false, hasFrameGen := false,
    timer_active := false, position_timer_active := false,
    audio_file := false, audio_stream := false, audio_stream_active := false,
    audio_playing := false, audio_paused := false, audio_thread := false,
    wf := false, seek_position := 0, duration_sent := false,
    hasPlaylist := false, events := [] }

/-- Claim C2, counterexample: `stop()` on a Playing engine with two
buffered frames leaves the frame buffer untouched (it is not cleared), and
with a pending seek it keeps the audio stream object open. -/
theorem C2_counterexample :
    (stop ePlaying).frame_buffer = [11, 12] ∧
    (stop ePlaying).frame_buffer ≠ [] ∧
    (stop ePlaying).audio_stream = true := by decide

/-- Claim C2 (amended): from every engine state, `stop()` stops both
periodic ticks, releases the decoder, marks audio stopped (closing the
stream and the wave reader whenever no seek is pending), resets the
position to 0 and transitions to Stopped; the frame buffer is left
unchanged (it is only cleared by the next decoder initialisation). -/
theorem C2_stop_releases_resources (e : EngineState) :
    (stop e).timer_active = false ∧
    (stop e).position_timer_active = false ∧
    (stop e).hasDecoder = false ∧
    (stop e).audio_playing = false ∧
    (stop e).current_position = 0 ∧
    (stop e).state = StoppedState ∧
    (stop e).frame_buffer = e.frame_buffer ∧
    (e.seek_position ≤ 0 → (stop e).audio_stream = false ∧ (stop e).wf = false) := by
  rw [stop_spec]
  refine ⟨rfl, rfl, rfl, rfl, rfl, rfl, rfl, fun h => ⟨?_, ?_⟩⟩
  · by_cases hs : e.audio_stream <;> simp [hs, not_lt.mpr h]
  · simp [not_lt.mpr h]

/-- Witness for C2: the amended theorem applied to the concrete resting
state, whose pending seek is 0. -/
theorem C2_stop_releases_resources_witness :
    eStopped.seek_position ≤ 0 ∧
    (stop eStopped).state = StoppedState ∧
    (stop eStopped).frame_buffer = eStopped.frame_buffer ∧
    (stop eStopped).audio_stream = false ∧ (stop eStopped).wf = false :=
  ⟨by decide,
   (C2_stop_releases_resources eStopped).2.2.2.2.2.1,
   (C2_stop_releases_resources eStopped).2.2.2.2.2.2.1,
   ((C2_stop_releases_resources eStopped).2.2.2.2.2.2.2 (by decide)).1,
   ((C2_stop_releases_resources eStopped).2.2.2.2.2.2.2 (by decide)).2⟩

/-- Claim C7, counterexample: a second `stop()` is not observationally the
same as one: it emits `positionChanged 0` and `stateChanged Stopped` again,
so the resulting engine (event log included) differs. -/
theorem C7_counterexample :
    stop (stop ePlaying) ≠ stop ePlaying ∧
    (stop (stop ePlaying)).events ≠ (stop ePlaying).events := by decide

/-- Claim C7 (amended): `pause()` twice equals `pause()` once exactly
(signals included); `stop()` twice leaves the same engine configuration as
once, but the second call re-emits `positionChanged 0` and
`stateChanged Stopped`. -/
theorem C7_pause_stop_idempotent (e : EngineState) :
    pause (pause e) = pause e ∧
    core (stop (stop e)) = core (stop e) ∧
    (stop (stop e)).events =
      (stop e).events ++ [Event.positionChanged 0, Event.stateChanged StoppedState] := by
  refine ⟨pause_idem e, ?_, ?_⟩
  · rw [stop_spec e, stop_spec]
    by_cases hs : e.audio_stream <;> by_cases hk : 0 < e.seek_position <;>
      simp [core, hs, hk]
  · rw [stop_spec e, stop_spec]

/-- Full description of one position-reporting tick while Playing with a
positive duration: the position advances by `int(100 * rate)` and is
clamped above at the duration (only above), `positionChanged` is emitted,
and the duration-sent mark ends up set (re-emitting `durationChanged` if it
was not). -/
lemma updatePosition_spec (e : EngineState) (h1 : e.state = PlayingState)
    (h2 : 0 < e.duration) :
    updatePosition e =
      { e with
        current_position := min (e.current_position + pyInt (100 * e.rate)) e.duration,
        duration_sent := true,
        events := e.events
          ++ [Event.positionChanged
                (min (e.current_position + pyInt (100 * e.rate)) e.duration)]
          ++ (if e.duration_sent then [] else [Event.durationChanged e.duration]) } := by
  have hmin : ∀ p : Int, (if e.duration < p then e.duration else p) = min p e.duration := by
    intro p
    rcases lt_or_le e.duration p with h | h
    · rw [if_pos h]
      omega
    · rw [if_neg (not_lt.mpr h)]
      omega
  unfold updatePosition
  rw [if_neg (by simp [h1]), if_pos h2]
  dsimp only
  rw [hmin]
  by_cases hd : e.duration_sent
  · rw [if_neg (by simp [hd])]
    simp [hd]
  · rw [if_pos ⟨by simp [hd], h2⟩]
    simp [hd]

/-- One position-reporting tick never changes the playback state. -/
lemma updatePosition_state (e : EngineState) : (updatePosition e).state = e.state := by
  unfold updatePosition
  dsimp only
  split_ifs <;> rfl

/-- Concrete engine state: Playing at `position = duration` with both the
frame buffer and the generator exhausted. -/
def eAtEnd : EngineState :=
  { state := PlayingState, duration := 1000, current_position := 1000,
    frame_rate := 30, rate := 1, volume := 50,
    frame_buffer := [], source := [],
    hasDecoder := true, hasFrameGen := true,
    timer_active := true, position_timer_active := true,
    audio_file := true, audio_stream := true, audio_stream_active := true,
    audio_playing := true, audio_paused := false, audio_thread := true,
    wf := true, seek_position := 0, duration_sent := true,
    hasPlaylist := true, events := [] }

/-- Claim C3, counterexample: at `position = duration` while Playing the
position tick does not trigger the completion handling: the engine stays
Playing (the tick never calls `stop()`), whereas the frame tick's
exhaustion path at the same state does stop the engine and advances the
playlist. -/
theorem C3_counterexample :
    eAtEnd.state = PlayingState ∧
    eAtEnd.duration ≤ eAtEnd.current_position ∧
    (updatePosition eAtEnd).state = PlayingState ∧
    (updateFrame eAtEnd).state = StoppedState ∧
    Event.playlistNext ∈ (updateFrame eAtEnd).events := by
  refine ⟨rfl, by decide, ?_, by decide, by decide⟩
  rw [updatePosition_state]
  rfl

/-- Claim C3 (amended): while Playing with a positive duration, each
position-reporting tick computes the clock position (previous position plus
`int(100 * rate)`, clamped above at the duration), reports it via
`positionChanged`, and performs no end-of-stream handling whatsoever: the
state, the decoder and the timers are untouched even when the position has
reached the duration; completion is detected only by the frame tick's
exhaustion path. -/
theorem C3_position_tick_reports_only (e : EngineState) (h1 : e.state = PlayingState)
    (h2 : 0 < e.duration) :
    (updatePosition e).state = PlayingState ∧
    (updatePosition e).hasDecoder = e.hasDecoder ∧
    (updatePosition e).timer_active = e.timer_active ∧
    (updatePosition e).current_position =
      min (e.current_position + pyInt (100 * e.rate)) e.duration ∧
    (updatePosition e).events = e.events
      ++ [Event.positionChanged (min (e.current_position + pyInt (100 * e.rate)) e.duration)]
      ++ (if e.duration_sent then [] else [Event.durationChanged e.duration]) := by
  rw [updatePosition_spec e h1 h2]
  exact ⟨h1, rfl, rfl, rfl, rfl⟩

/-- Witness for C3: the amended theorem at the concrete end-of-media
state. -/
theorem C3_position_tick_reports_only_witness :
    (updatePosition eAtEnd).state = PlayingState ∧
    (updatePosition eAtEnd).hasDecoder = eAtEnd.hasDecoder ∧
    (updatePosition eAtEnd).timer_active = eAtEnd.timer_active ∧
    (updatePosition eAtEnd).current_position =
      min (eAtEnd.current_position + pyInt (100 * eAtEnd.rate)) eAtEnd.duration ∧
    (updatePosition eAtEnd).events = eAtEnd.events
      ++ [Event.positionChanged
            (min (eAtEnd.current_position + pyInt (100 * eAtEnd.rate)) eAtEnd.duration)]
      ++ (if eAtEnd.duration_sent then [] else [Event.durationChanged eAtEnd.duration]) :=
  C3_position_tick_reports_only eAtEnd rfl (by decide)

/-- Concrete engine state: Playing at position 0 with playback rate -1 (the
rate setter, lines 1015-1020, accepts any value unvalidated). -/
def eNegRate : EngineState :=
  { state := PlayingState, duration := 1000, current_position := 0,
    frame_rate := 30, rate := -1, volume := 50,
    frame_buffer := [11], source := [12],
    hasDecoder := true, hasFrameGen := true,
    timer_active := true, position_timer_active := true,
    audio_file := true, audio_stream := true, audio_stream_active := true,
    audio_playing := true, audio_paused := false, audio_thread := true,
    wf := true, seek_position := 0, duration_sent := true,
    hasPlaylist := false, events := [] }

/-- Claim C4, counterexample: with rate -1 at position 0 one tick stores
position -100, outside the interval [0, duration] the claim promises; the
tick clamps only above at the duration, never below at 0. -/
theorem C4_counterexample :
    eNegRate.state = PlayingState ∧
    0 < eNegRate.duration ∧
    (updatePosition eNegRate).current_position = -100 ∧
    ¬ (0 ≤ (updatePosition eNegRate).current_position) := by
  have hp : pyInt (100 * eNegRate.rate) = -100 := by
    rw [show (100 * eNegRate.rate : ℚ) = ((-100 : ℤ) : ℚ) by norm_num [eNegRate],
        pyInt_intCast]
  have h := updatePosition_spec eNegRate rfl (by decide)
  refine ⟨rfl, by decide, ?_, ?_⟩ <;>
    · rw [h]
      show _ 
      simp only [hp]
      decide

/-- Claim C4 (amended): while Playing with positive duration, one
position-reporting tick (the implementation's fixed 100 ms clock tick)
yields `p + int(100 * rate)` clamped only above at the duration; for
nonnegative previous position and rate this coincides with the clamp to
[0, duration] the claim states. -/
theorem C4_clock_tick_clamp (e : EngineState) (h1 : e.state = PlayingState)
    (h2 : 0 < e.duration) :
    (updatePosition e).current_position =
      min (e.current_position + pyInt (100 * e.rate)) e.duration ∧
    (0 ≤ e.current_position → 0 ≤ e.rate →
      (updatePosition e).current_position =
        max 0 (min (e.current_position + pyInt (100 * e.rate)) e.duration)) := by
  rw [updatePosition_spec e h1 h2]
  refine ⟨rfl, fun hp hr => ?_⟩
  have h100 : (0 : ℚ) ≤ 100 * e.rate := by positivity
  have := pyInt_nonneg h100
  show min (e.current_position + pyInt (100 * e.rate)) e.duration = _
  omega

/-- Witness for C4: the amended theorem at the concrete Playing state. -/
theorem C4_clock_tick_clamp_witness :
    0 ≤ ePlaying.current_position ∧ 0 ≤ ePlaying.rate ∧
    (updatePosition ePlaying).current_position =
      max 0 (min (ePlaying.current_position + pyInt (100 * ePlaying.rate)) ePlaying.duration) :=
  ⟨by decide, by norm_num [ePlaying],
   (C4_clock_tick_clamp ePlaying rfl (by decide)).2 (by decide) (by norm_num [ePlaying])⟩

/-- Claim C1 (code defect): a drift of 500 ms — above the 200 ms logging
threshold but at or below the 1000 ms hard threshold the inline comment at
line 533 requires — still triggers a forced resync once more than 2 s have
passed since the last correction, because the `_last_sync_time` attribute
always exists (set at line 95) and Python's `and`/`or` precedence reduces
the guard at lines 534-535 to the elapsed-time test alone.  A drift of
1500 ms with only 1 s elapsed is correctly suppressed, so the
`MIN_RESYNC_INTERVAL` half of the guard is the only half in force. -/
theorem C1_resync_below_hard_threshold :
    forceSyncTriggered 500 true 3000 = true ∧
    ¬ (1000 < (500 : Int)) ∧
    forceSyncTriggered 1500 true 1000 = false := by decide

/-- One buffer operation keeps the buffer within the transient
2x-capacity bound. -/
lemma applyBufOp_le_two_cap (s : BufSrc) (op : BufOp)
    (h : s.buffer.length ≤ 2 * frameBufferSize) :
    (applyBufOp s op).buffer.length ≤ 2 * frameBufferSize := by
  cases op with
  | prefillNormal => simp [applyBufOp, prefillB, frameBufferSize]
  | prefillSeek => simp [applyBufOp, prefillB, frameBufferSize]
  | popOp =>
    unfold applyBufOp popFrameB
    cases hb : s.buffer with
    | cons f rest => simp_all; omega
    | nil => cases hsrc : s.source <;> simp_all
  | refillOp =>
    unfold applyBufOp refillB
    dsimp only
    split_ifs with hf
    · exact h
    · simp only [List.length_append, List.length_take]
      simp [frameBufferSize] at hf ⊢
      omega

/-- Without the post-seek double prefill, one buffer operation keeps the
buffer within normal capacity. -/
lemma applyBufOp_le_cap (s : BufSrc) (op : BufOp) (hop : op ≠ BufOp.prefillSeek)
    (h : s.buffer.length ≤ frameBufferSize) :
    (applyBufOp s op).buffer.length ≤ frameBufferSize := by
  cases op with
  | prefillNormal => simp [applyBufOp, prefillB, frameBufferSize]
  | prefillSeek => exact absurd rfl hop
  | popOp =>
    unfold applyBufOp popFrameB
    cases hb : s.buffer with
    | cons f rest => simp_all; omega
    | nil => cases hsrc : s.source <;> simp_all
  | refillOp =>
    unfold applyBufOp refillB
    dsimp only
    split_ifs with hf
    · exact h
    · simp only [List.length_append, List.length_take]
      simp [frameBufferSize] at hf ⊢
      omega

/-- Any operation sequence keeps the buffer within the 2x-capacity
bound. -/
lemma runBufOps_le_two_cap (ops : List BufOp) (s : BufSrc)
    (h : s.buffer.length ≤ 2 * frameBufferSize) :
    (runBufOps s ops).buffer.length ≤ 2 * frameBufferSize := by
  induction ops generalizing s with
  | nil => exact h
  | cons op ops ih =>
    simpa [runBufOps] using ih (applyBufOp s op) (applyBufOp_le_two_cap s op h)

/-- Any operation sequence without a post-seek prefill keeps the buffer
within normal capacity. -/
lemma runBufOps_le_cap (ops : List BufOp) (s : BufSrc)
    (hops : BufOp.prefillSeek ∉ ops) (h : s.buffer.length ≤ frameBufferSize) :
    (runBufOps s ops).buffer.length ≤ frameBufferSize := by
  induction ops generalizing s with
  | nil => exact h
  | cons op ops ih =>
    rw [List.mem_cons, not_or] at hops
    simpa [runBufOps] using
      ih (applyBufOp s op) hops.2 (applyBufOp_le_cap s op (fun he => hops.1 he.symm) h)

/-- Claim C5: starting from the cleared buffer every prefill sequence
begins with, any sequence of prefill (normal capacity 5, or the transient
2x-capacity post-seek variant), pop and refill operations keeps the buffer
length within the applicable bound — 2x capacity in general, and plain
capacity when no post-seek prefill occurs — and a pop on an empty buffer
whose backing generator is exhausted yields no frame. -/
theorem C5_buffer_never_exceeds_capacity (ops : List BufOp) (src : List Frame) :
    (runBufOps ⟨[], src⟩ ops).buffer.length ≤ 2 * frameBufferSize ∧
    (BufOp.prefillSeek ∉ ops →
      (runBufOps ⟨[], src⟩ ops).buffer.length ≤ frameBufferSize) ∧
    (popFrameB ⟨[], []⟩).1 = none :=
  ⟨runBufOps_le_two_cap ops _ (by simp),
   fun hmem => runBufOps_le_cap ops _ hmem (by simp),
   rfl⟩

/-- Witness for C5: a concrete prefill-refill-pop-pop sequence over an
eight-frame source stays within normal capacity. -/
theorem C5_buffer_never_exceeds_capacity_witness :
    BufOp.prefillSeek ∉ [BufOp.prefillNormal, BufOp.refillOp, BufOp.popOp, BufOp.popOp] ∧
    (runBufOps ⟨[], [0, 1, 2, 3, 4, 5, 6, 7]⟩
      [BufOp.prefillNormal, BufOp.refillOp, BufOp.popOp, BufOp.popOp]).buffer.length ≤
        frameBufferSize ∧
    (popFrameB ⟨[], []⟩).1 = none :=
  ⟨by decide,
   (C5_buffer_never_exceeds_capacity
      [BufOp.prefillNormal, BufOp.refillOp, BufOp.popOp, BufOp.popOp]
      [0, 1, 2, 3, 4, 5, 6, 7]).2.1 (by decide),
   (C5_buffer_never_exceeds_capacity [] []).2.2⟩

/-- `_init_decoder` reports success exactly when the path exists and the
decoder opens. -/
lemma initDecoder_fst (env : Env) (e : EngineState) :
    (initDecoder env e).1 = (env.pathOk && env.decoderOk) := by
  unfold initDecoder stopAudio
  by_cases hp : env.pathOk <;> by_cases hd : env.decoderOk <;>
    by_cases hs : 0 < e.seek_position <;> by_cases hstream : e.audio_stream <;>
    simp [hp, hd, hs, hstream]

/-- `_init_decoder` either fails leaving `current_position` unchanged, or
succeeds, moving a pending positive seek offset into `current_position`
(lines 153-163). -/
lemma initDecoder_current_position (env : Env) (e : EngineState) :
    ((initDecoder env e).2).current_position =
      if 0 < e.seek_position ∧ env.pathOk ∧ env.decoderOk
      then e.seek_position else e.current_position := by
  unfold initDecoder stopAudio
  by_cases hp : env.pathOk <;> by_cases hd : env.decoderOk <;>
    by_cases hs : 0 < e.seek_position <;> by_cases hstream : e.audio_stream <;>
    simp [hp, hd, hs, hstream]

/-- `_init_decoder` never removes events from the log. -/
lemma initDecoder_events_mono (env : Env) (e : EngineState) {x : Event}
    (hx : x ∈ e.events) : x ∈ ((initDecoder env e).2).events := by
  unfold initDecoder stopAudio
  by_cases hp : env.pathOk <;> by_cases hd : env.decoderOk <;>
    by_cases hs : 0 < e.seek_position <;> by_cases hstream : e.audio_stream <;>
    simp [hp, hd, hs, hstream, hx]

/-- `_init_decoder` keeps the state field unchanged. -/
lemma initDecoder_state (env : Env) (e : EngineState) :
    ((initDecoder env e).2).state = e.state := by
  unfold initDecoder stopAudio
  by_cases hp : env.pathOk <;> by_cases hd : env.decoderOk <;>
    by_cases hs : 0 < e.seek_position <;> by_cases hstream : e.audio_stream <;>
    simp [hp, hd, hs, hstream]

/-- `_init_decoder` leaves the event log untouched when it fails. -/
lemma initDecoder_events_of_fail (env : Env) (e : EngineState)
    (hfail : env.pathOk = false ∨ env.decoderOk = false) :
    ((initDecoder env e).2).events = e.events := by
  unfold initDecoder stopAudio
  rcases hfail with hf | hf <;>
    by_cases hp : env.pathOk <;> by_cases hd : env.decoderOk <;>
    by_cases hs : 0 < e.seek_position <;> by_cases hstream : e.audio_stream <;>
    simp_all

/-- Concrete environment: missing/unopenable media. -/
def envBad : Env :=
  { pathOk := false, decoderOk := false, frames := [], metadata := [],
    ffprobe := none, audioOk := false, decoderHasFrameGenAttr := false,
    fastSeekOk := false, seekFrames := [] }

/-- Concrete environment: healthy media whose decoder reports a 3 s
duration and three frames. -/
def envOk : Env :=
  { pathOk := true, decoderOk := true, frames := [21, 22, 23],
    metadata := [("source_duration_sec", some 3)], ffprobe := none,
    audioOk := true, decoderHasFrameGenAttr := true, fastSeekOk := true,
    seekFrames := [31, 32] }

/-- Claim C8: `play()` from Stopped with a path that does not exist or a
decoder that fails to open leaves the state Stopped and emits nothing — in
particular no frame-ready and no duration-changed signal. -/
theorem C8_play_unreadable_path (env : Env) (e : EngineState)
    (hfail : env.pathOk = false ∨ env.decoderOk = false)
    (hstate : e.state = StoppedState) :
    (play env e).state = StoppedState ∧ (play env e).events = e.events := by
  have hfst : (initDecoder env e).1 = false := by
    rw [initDecoder_fst]
    rcases hfail with h | h <;> simp [h]
  unfold play
  rw [if_neg (by rw [hstate]; decide), if_pos hstate]
  dsimp only
  rw [hfst]
  simp only [Bool.false_eq_true, if_false]
  exact ⟨by rw [initDecoder_state, hstate], initDecoder_events_of_fail env e hfail⟩

/-- Witness for C8: the failing environment against the resting player. -/
theorem C8_play_unreadable_path_witness :
    (play envBad eStopped).state = StoppedState ∧
    (play envBad eStopped).events = eStopped.events :=
  C8_play_unreadable_path envBad eStopped (Or.inl rfl) rfl

/-- Resume block leaves the stored position unchanged. -/
lemma seekResume_current_position (e : EngineState) :
    (seekResume e).current_position = e.current_position := rfl

/-- Audio restart after a fast seek leaves the stored position
unchanged. -/
lemma seekRestartAudio_current_position (e : EngineState) (b : Bool) :
    (seekRestartAudio e b).current_position = e.current_position := by
  unfold seekRestartAudio
  split_ifs <;> rfl

/-- Audio restart after a fallback re-init leaves the stored position
unchanged. -/
lemma seekRestartAudioFull_current_position (e : EngineState) :
    (seekRestartAudioFull e).current_position = e.current_position := by
  unfold seekRestartAudioFull
  split_ifs <;> rfl

/-- Resume block only appends to the event log. -/
lemma seekResume_events_mono {x : Event} (e : EngineState) (hx : x ∈ e.events) :
    x ∈ (seekResume e).events := by
  unfold seekResume
  simp only [List.mem_append]
  exact Or.inl hx

/-- Audio restart after a fast seek emits nothing. -/
lemma seekRestartAudio_events (e : EngineState) (b : Bool) :
    (seekRestartAudio e b).events = e.events := by
  unfold seekRestartAudio
  split_ifs <;> rfl

/-- Audio restart after a fallback re-init emits nothing. -/
lemma seekRestartAudioFull_events (e : EngineState) :
    (seekRestartAudioFull e).events = e.events := by
  unfold seekRestartAudioFull
  split_ifs <;> rfl

/-- With a decoder present, `setPosition` always stores the requested
position clamped below at 0 and above at the duration, on every one of its
fast-seek / fallback / failure paths. -/
lemma setPosition_current_position (env : Env) (e : EngineState) (ms : Int)
    (hdec : e.hasDecoder = true) :
    (setPosition env e ms).current_position = min (max ms 0) e.duration := by
  unfold setPosition
  rw [if_neg (by simp [hdec])]
  dsimp only
  split_ifs <;>
    first
    | omega
    | (dsimp only; omega)
    | (rw [seekRestartAudio_current_position, seekResume_current_position]; dsimp only; omega)
    | (rw [seekRestartAudioFull_current_position, seekResume_current_position,
           initDecoder_current_position]; dsimp only; rw [ite_self]; omega)
    | (rw [initDecoder_current_position]; dsimp only; rw [ite_self]; omega)

/-- With a decoder present, `setPosition` reports the clamped position via
`positionChanged` on every one of its paths. -/
lemma setPosition_events_mem (env : Env) (e : EngineState) (ms : Int)
    (hdec : e.hasDecoder = true) :
    Event.positionChanged (min (max ms 0) e.duration) ∈ (setPosition env e ms).events := by
  have hclamp : (if e.duration < (if ms < 0 then 0 else ms) then e.duration
      else if ms < 0 then 0 else ms) = min (max ms 0) e.duration := by
    split_ifs <;> omega
  unfold setPosition
  rw [if_neg (by simp [hdec]), ← hclamp]
  dsimp only
  split_ifs <;>
    first
    | (rw [seekRestartAudio_events]; exact seekResume_events_mono _ (by simp))
    | (rw [seekRestartAudioFull_events];
       exact seekResume_events_mono _ (initDecoder_events_mono _ _ (by simp)))
    | (exact initDecoder_events_mono _ _ (by simp))
    | (simp; done)

/-- Claim C6: once a media item is open (decoder present, nonnegative
duration), `setPosition ms` — for any `ms`, negative or beyond the
duration — stores and reports exactly `ms` clamped to [0, duration]. -/
theorem C6_setPosition_clamps (env : Env) (e : EngineState) (ms : Int)
    (hdec : e.hasDecoder = true) (hdur : 0 ≤ e.duration) :
    (setPosition env e ms).current_position = min (max ms 0) e.duration ∧
    0 ≤ (setPosition env e ms).current_position ∧
    (setPosition env e ms).current_position ≤ e.duration ∧
    Event.positionChanged (min (max ms 0) e.duration) ∈ (setPosition env e ms).events := by
  have h1 := setPosition_current_position env e ms hdec
  exact ⟨h1, by rw [h1]; omega, by rw [h1]; omega, setPosition_events_mem env e ms hdec⟩

/-- Witness for C6: a request of 5000 ms against a 1000 ms medium stores
and reports 1000, and a request of -3 ms stores 0. -/
theorem C6_setPosition_clamps_witness :
    (setPosition envOk ePlaying 5000).current_position = min (max 5000 0) ePlaying.duration ∧
    Event.positionChanged (min (max 5000 0) ePlaying.duration) ∈
      (setPosition envOk ePlaying 5000).events ∧
    (setPosition envOk ePlaying (-3)).current_position = 0 :=
  ⟨(C6_setPosition_clamps envOk ePlaying 5000 (by decide) (by decide)).1,
   (C6_setPosition_clamps envOk ePlaying 5000 (by decide) (by decide)).2.2.2,
   by
    rw [(C6_setPosition_clamps envOk ePlaying (-3) (by decide) (by decide)).1]
    decide⟩

/-- Final read step of the callback always reports `paContinue`. -/
lemma readAndReturn_status (a : AudioState) (n : Nat) :
    ((readAndReturn a n).1).2 = PaStatus.paContinue := by
  unfold readAndReturn
  cases a.wf <;> dsimp only <;> split_ifs <;> rfl

/-- Claim C10: on every input — normal read, volume-scaled read, pending
reposition, drift correction, end of data, failed reopen — the audio render
callback returns the continue status, never the complete status: end of
data and errors yield an empty buffer with `paContinue`, so the callback
itself never ends the stream. -/
theorem C10_audio_callback_never_completes (openOk : Bool) (fileWf : Wf)
    (a : AudioState) (frameCount : Nat) :
    ((audioCallback openOk fileWf a frameCount).1).2 = PaStatus.paContinue := by
  unfold audioCallback
  cases a.wf <;> dsimp only <;>
    repeat
      first
      | rfl
      | apply readAndReturn_status
      | split
